import Mathlib

/-
Verification of the tariff-game decision model (`game-theory-tariffs`).

The repository computes, for a tariff-imposing country ("US") and a trading
partner, a softmax response-probability distribution, terminal payoffs, and
expected utilities over a small game tree, in several near-duplicate variants
(app.py, main.py, pages/gametree.py, pages/namegametree.py, pages/bayesian.py,
pages/simple.py).  Python floats are modelled as real numbers.
-/

namespace TariffGame

set_option linter.unusedVariables false

noncomputable section

/-- Country profile record, as in the `countries` tables of app.py and
pages/bayesian.py (GDP, Trade, Nationalism, Friendliness, GDP_us, TD_us,
ID_us, ID). -/
structure Profile where
  GDP : ℝ
  Trade : ℝ
  Nationalism : ℝ
  Friendliness : ℝ
  GDP_us : ℝ
  TD_us : ℝ
  ID_us : ℝ
  ID : ℝ

/-- Normalization bound `GDP_MIN` (app.py line 40). -/
def GDP_MIN : ℝ := 0.3

/-- Normalization bound `GDP_MAX` (app.py line 41). -/
def GDP_MAX : ℝ := 25.0

/-- Normalization bound `TRADE_MAX` (app.py line 42). -/
def TRADE_MAX : ℝ := 0.75

/-- Normalization bound `NATIONALISM_MAX` (app.py line 43). -/
def NATIONALISM_MAX : ℝ := 10.0

/-- Normalization bound `TARIFF_MAX` (app.py line 44). -/
def TARIFF_MAX : ℝ := 100

/-- Normalized GDP factor: `G = (profile["GDP"] - GDP_MIN) / (GDP_MAX - GDP_MIN)`
(app.py line 119). -/
def normG (gdp : ℝ) : ℝ := (gdp - GDP_MIN) / (GDP_MAX - GDP_MIN)

/-- Normalized trade-dependence factor: `D = profile["Trade"] / TRADE_MAX`
(app.py line 120). -/
def normD (trade : ℝ) : ℝ := trade / TRADE_MAX

/-- Normalized nationalism factor: `N = profile["Nationalism"] / NATIONALISM_MAX`
(app.py line 121). -/
def normN (natl : ℝ) : ℝ := natl / NATIONALISM_MAX

/-- Friendliness factor, passed through unchanged: `F = profile["Friendliness"]`
(app.py line 122). -/
def normF (f : ℝ) : ℝ := f

/-- Normalized tariff factor: `T_norm = t * 100 / TARIFF_MAX` (app.py
lines 123-124). -/
def normT (t : ℝ) : ℝ := t * 100 / TARIFF_MAX

/-- Numerically stable softmax over a 3-vector of scores, as in `softmax`
of app.py lines 47-49: subtract the maximum score, exponentiate, normalize
by the sum. -/
noncomputable def softmax3 (s1 s2 s3 : ℝ) : ℝ × ℝ × ℝ :=
  let m := max s1 (max s2 s3)
  let e1 := Real.exp (s1 - m)
  let e2 := Real.exp (s2 - m)
  let e3 := Real.exp (s3 - m)
  (e1 / (e1 + e2 + e3), e2 / (e1 + e2 + e3), e3 / (e1 + e2 + e3))

/-- Retaliation score `S_ret = 1.0*G + 1.2*N + 1.5*T - 1.0*D - 1.3*F`
(app.py line 52).  `T` is a genuine argument of the model even though some
scores ignore it. -/
def S_ret (G N D F T : ℝ) : ℝ := 1.0 * G + 1.2 * N + 1.5 * T - 1.0 * D - 1.3 * F

/-- Negotiation score `S_neg = 1.3*F + 1.0*D + 1.2*(1 - N) + 0.8*G`
(app.py line 53); it does not depend on `T`. -/
def S_neg (G N D F T : ℝ) : ℝ := 1.3 * F + 1.0 * D + 1.2 * (1 - N) + 0.8 * G

/-- No-response score `S_none = 1.2*(1 - G) + 1.0*D + 1.5*(1 - T) + 1.0*F`
(app.py line 54). -/
def S_none (G N D F T : ℝ) : ℝ := 1.2 * (1 - G) + 1.0 * D + 1.5 * (1 - T) + 1.0 * F

/-- Response-probability model `updated_response_probs` (app.py lines 51-55):
softmax over `[S_ret, S_neg, S_none]`.  Component order: retaliate,
negotiate (low_retaliate), no_response. -/
noncomputable def updated_response_probs (G N D F T : ℝ) : ℝ × ℝ × ℝ :=
  softmax3 (S_ret G N D F T) (S_neg G N D F T) (S_none G N D F T)

/-- Economic-only US payoff `us_payoff` (app.py lines 58-61): damage only if
the `retaliated` flag is truthy (nonzero), plus gain `mu * t_us * ID_us`. -/
noncomputable def us_payoff (t_us t_ch retaliated GDP_us TD_us mu ID_us : ℝ) : ℝ :=
  -(if retaliated ≠ 0 then GDP_us * (t_ch * TD_us) else 0) + mu * t_us * ID_us

/-- Partner payoff `foreign_payoff` (app.py lines 63-66): always-applied damage
`GDP * (t_us * TD)`, gain `nu * t_ch * ID` gated on `t_ch > 0`. -/
noncomputable def foreign_payoff (t_us t_ch GDP TD nu ID : ℝ) : ℝ :=
  -(GDP * (t_us * TD)) + (if t_ch > 0 then nu * t_ch * ID else 0)

/-- Political-economy US payoff `us_payoff` of pages/namegametree.py
lines 51-54: damage gated on the truthiness of the numeric `retaliated`
flag, political term `alpha * t_us - beta * retaliated + gamma` in which
the flag enters arithmetically. -/
noncomputable def us_payoff_pol (t_us t_ch retaliated alpha beta gamma GDP_us TD_us : ℝ) : ℝ :=
  -(if retaliated ≠ 0 then GDP_us * (t_ch * TD_us) else 0)
    + (alpha * t_us - beta * retaliated + gamma)

/-- Response probabilities of the app.py pipeline (lines 119-128): normalize
the profile, then `updated_response_probs` at the normalized tariff. -/
noncomputable def appProbs (prof : Profile) (t : ℝ) : ℝ × ℝ × ℝ :=
  updated_response_probs (normG prof.GDP) (normN prof.Nationalism) (normD prof.Trade)
    prof.Friendliness (normT t)

/-- Expected utility of the low-tariff first move `U_x2` (app.py line 160,
the same shape as pages/namegametree.py line 139 and pages/gametree.py
lines 112-116): `p["no_response"] * T5 + p["low_retaliate"] * max T6a T6b
+ p["high_retaliate"] * max T7a T7b`, with the terminal payoffs of app.py
lines 142-146.  Slider values `t2v z1 z2 tcl tch` are arguments. -/
noncomputable def appU_x2 (prof : Profile) (mu t2v z1 z2 tcl tch : ℝ) : ℝ :=
  let p := appProbs prof t2v
  p.2.2 * us_payoff t2v 0 0 prof.GDP_us prof.TD_us mu prof.ID_us
    + p.2.1 * max (us_payoff z1 0 0 prof.GDP_us prof.TD_us mu prof.ID_us)
        (us_payoff z2 0 0 prof.GDP_us prof.TD_us mu prof.ID_us)
    + p.1 * max (us_payoff z1 tcl 1 prof.GDP_us prof.TD_us mu prof.ID_us)
        (us_payoff z2 tch 1 prof.GDP_us prof.TD_us mu prof.ID_us)

/-- Expected utility of the high-tariff first move `U_x3` (app.py line 161):
plain probability-weighted sum of the three terminal payoffs `T2 T3 T4`
(app.py lines 139-141), with no `max`. -/
noncomputable def appU_x3 (prof : Profile) (mu t3v tch : ℝ) : ℝ :=
  let p := appProbs prof t3v
  p.2.2 * us_payoff t3v 0 0 prof.GDP_us prof.TD_us mu prof.ID_us
    + p.2.1 * us_payoff t3v 0 0 prof.GDP_us prof.TD_us mu prof.ID_us
    + p.1 * us_payoff t3v tch 1 prof.GDP_us prof.TD_us mu prof.ID_us

/-- Outcome reached by a partner response class: either a terminal payoff, or
a second US decision node with two follow-up payoffs (spec §4.4). -/
inductive Outcome where
  | terminal (t : ℝ)
  | node (f1 f2 : ℝ)

/-- Value of a response-class outcome under subgame-perfect reasoning: a
terminal payoff is itself; a second decision node is worth the maximum of
its follow-up payoffs (spec §4.4). -/
noncomputable def outcomeValue : Outcome → ℝ
  | .terminal t => t
  | .node f1 f2 => max f1 f2

/-- Expected utility of a first-stage action per the spec (§4.4): the
probability-weighted sum over the response classes of the subgame-perfect
value of each class's outcome. -/
noncomputable def expectedUtility (branches : List (ℝ × Outcome)) : ℝ :=
  (branches.map fun b => b.1 * outcomeValue b.2).sum

/-- Model of Python's `round(x, 2)` over the reals: round to the nearest
hundredth (float-specific round-half-to-even ties are not modelled; the
theorems below never depend on the tie direction). -/
noncomputable def round2 (x : ℝ) : ℝ := ((round (100 * x) : ℤ) : ℝ) / 100

/-- US payoff of pages/bayesian.py lines 63-67: gain `mu * t_us * ID_us`,
damage `1.5 * GDP_us * t_ch * TD_us`, friendliness penalty
`-friendliness * penalty_scale` only if `t_us > 0.2`, rounded to 2 places. -/
noncomputable def usPayoffBayes (t_us t_ch GDP_us TD_us mu ID_us friendliness ps : ℝ) : ℝ :=
  round2 (mu * t_us * ID_us - 1.5 * GDP_us * t_ch * TD_us
    + (if t_us > 0.2 then -friendliness * ps else 0))

/-- Latent-type score `S_ret` of `response_type_probs`
(pages/bayesian.py line 58, identical in pages/simple.py line 26). -/
def S_retB (G N D F : ℝ) : ℝ := 1.4 * G + 1.5 * N - 1.0 * D - 1.2 * F

/-- Latent-type score `S_low` of `response_type_probs`
(pages/bayesian.py line 59, identical in pages/simple.py line 27). -/
def S_lowB (G N D F : ℝ) : ℝ := 1.2 * F + 0.8 * D + 0.9 * (1 - N) + 0.6 * G

/-- Latent-type score `S_none` of `response_type_probs`
(pages/bayesian.py line 60, identical in pages/simple.py line 28). -/
def S_noneB (G N D F : ℝ) : ℝ := 1.1 * (1 - G) + 1.0 * D + 1.0 * F

/-- Nature's latent-type distribution `response_type_probs(G, N, D, F)`
(pages/bayesian.py lines 57-61 and pages/simple.py lines 24-29): softmax over
`[S_ret, S_low, S_none]`.  It takes no tariff argument. -/
noncomputable def response_type_probs (G N D F : ℝ) : ℝ × ℝ × ℝ :=
  softmax3 (S_retB G N D F) (S_lowB G N D F) (S_noneB G N D F)

/-- Latent partner type drawn by Nature ({high, low, none}). -/
inductive LType where
  | high
  | low
  | none

/-- Enumeration order of the latent types, as the `types` list of
pages/bayesian.py line 89 and pages/simple.py line 75. -/
def ltypes : List LType := [.high, .low, .none]

/-- Latent-type probabilities of the pages/bayesian.py pipeline
(lines 83-88): normalize the profile, then `response_type_probs`. -/
noncomputable def bayesTypeProbs (prof : Profile) : ℝ × ℝ × ℝ :=
  response_type_probs (normG prof.GDP) (normN prof.Nationalism) (normD prof.Trade)
    prof.Friendliness

/-- The dictionary `p = dict(zip(types, type_probs))` of pages/bayesian.py
line 90, as a function on latent types. -/
noncomputable def pOfBayes (prof : Profile) : LType → ℝ
  | .high => (bayesTypeProbs prof).1
  | .low => (bayesTypeProbs prof).2.1
  | .none => (bayesTypeProbs prof).2.2

/-- US component of the `payoffs` table of pages/bayesian.py lines 105-117:
the table key includes the latent type `typ`, but the US payoff ignores it
(only the foreign component uses the alignment bonus). -/
noncomputable def bayesPayoffNode (prof : Profile) (typ : LType) (mu t_us t_chosen ps : ℝ) : ℝ :=
  usPayoffBayes t_us t_chosen prof.GDP_us prof.TD_us mu prof.ID_us prof.Friendliness ps

/-- US expected payoff `U_high` of pages/bayesian.py line 120: sum over the
three latent types of `p[typ] * payoffs[typ_high_retaliate] * 0.5
+ p[typ] * payoffs[typ_high_no_retaliate] * 0.5`. -/
noncomputable def bayesU_high (prof : Profile) (mu t3v t_chv ps : ℝ) : ℝ :=
  (ltypes.map (fun typ =>
    pOfBayes prof typ * bayesPayoffNode prof typ mu t3v t_chv ps * 0.5
      + pOfBayes prof typ * bayesPayoffNode prof typ mu t3v 0.0 ps * 0.5)).sum

/-- US expected payoff `U_low` of pages/bayesian.py line 121, analogous to
`U_high` with the low-tariff rate. -/
noncomputable def bayesU_low (prof : Profile) (mu t2v t_chv ps : ℝ) : ℝ :=
  (ltypes.map (fun typ =>
    pOfBayes prof typ * bayesPayoffNode prof typ mu t2v t_chv ps * 0.5
      + pOfBayes prof typ * bayesPayoffNode prof typ mu t2v 0.0 ps * 0.5)).sum

/-- Outputs of one evaluation of the pages/bayesian.py model. -/
structure BayesEval where
  typeProbs : ℝ × ℝ × ℝ
  uHigh : ℝ
  uLow : ℝ

/-- One full evaluation of the pages/bayesian.py model, parametrized by the
module-level rates (`mu`, `t2`, `t3`, `t_ch`, `penalty_scale`,
lines 40-45). -/
noncomputable def bayesEval (prof : Profile) (mu t2v t3v t_chv ps : ℝ) : BayesEval :=
  { typeProbs := bayesTypeProbs prof
    uHigh := bayesU_high prof mu t3v t_chv ps
    uLow := bayesU_low prof mu t2v t_chv ps }

/-- Country profile of pages/simple.py (line 7): only the four probability
factors. -/
structure SProfile where
  GDP : ℝ
  Trade : ℝ
  Nationalism : ℝ
  Friendliness : ℝ

/-- Per-type penalty factor `{"high": .5, "low": .2, "none": .1}` of
pages/simple.py line 33. -/
noncomputable def penaltyOf : LType → ℝ
  | .high => 0.5
  | .low => 0.2
  | .none => 0.1

/-- Per-type sensitivity `{"high": 1.0, "low": .6, "none": .3}` of
pages/simple.py line 40. -/
noncomputable def sensOf : LType → ℝ
  | .high => 1.0
  | .low => 0.6
  | .none => 0.3

/-- `us_payoff_simple` of pages/simple.py lines 31-37. -/
noncomputable def us_payoff_simple (t_us retaliation GDP_partner friendliness : ℝ)
    (partner_type : LType) (gamma : ℝ) : ℝ :=
  round2 (t_us * (1 - friendliness) - retaliation * GDP_partner * penaltyOf partner_type
    - t_us * friendliness * gamma)

/-- `foreign_payoff_simple` of pages/simple.py lines 39-51. -/
noncomputable def foreign_payoff_simple (t_us retaliation GDP friendliness : ℝ)
    (partner_type : LType) : ℝ :=
  round2 (-(t_us * GDP * sensOf partner_type)
    + retaliation * (1 - friendliness) * sensOf partner_type
    - max (retaliation * friendliness * (1 / (GDP + 0.1)) * 5 - t_us * 3) 0)

/-- Latent-type probabilities of the pages/simple.py pipeline (lines 70-76). -/
noncomputable def simpleTypeProbs (prof : SProfile) : ℝ × ℝ × ℝ :=
  response_type_probs (normG prof.GDP) (normN prof.Nationalism) (normD prof.Trade)
    prof.Friendliness

/-- The dictionary `p = dict(zip(types, ...))` of pages/simple.py line 76. -/
noncomputable def pOfSimple (prof : SProfile) : LType → ℝ
  | .high => (simpleTypeProbs prof).1
  | .low => (simpleTypeProbs prof).2.1
  | .none => (simpleTypeProbs prof).2.2

/-- Payoff pair of one info set of pages/simple.py lines 81-88; `usHigh`
selects the US action, `retal` the foreign action. -/
noncomputable def simplePayoffs (prof : SProfile) (t_low t_high t_ret gamma : ℝ)
    (typ : LType) (usHigh retal : Bool) : ℝ × ℝ :=
  let t_us := if usHigh then t_high else t_low
  let t_fr := if retal then t_ret else 0.0
  (us_payoff_simple t_us t_fr prof.GDP prof.Friendliness typ gamma,
   foreign_payoff_simple t_us t_fr prof.GDP prof.Friendliness typ)

/-- `foreign_best_action` of pages/simple.py lines 93-96: `true` stands for
"retaliate". -/
noncomputable def simpleForeignBest (prof : SProfile) (t_low t_high t_ret gamma : ℝ)
    (typ : LType) (usHigh : Bool) : Bool :=
  if (simplePayoffs prof t_low t_high t_ret gamma typ usHigh true).2 >
      (simplePayoffs prof t_low t_high t_ret gamma typ usHigh false).2
  then true else false

/-- `exp_us_low` of pages/simple.py line 99. -/
noncomputable def simpleExpLow (prof : SProfile) (t_low t_high t_ret gamma : ℝ) : ℝ :=
  (ltypes.map (fun typ =>
    pOfSimple prof typ *
      (simplePayoffs prof t_low t_high t_ret gamma typ false
        (simpleForeignBest prof t_low t_high t_ret gamma typ false)).1)).sum

/-- `exp_us_high` of pages/simple.py line 100. -/
noncomputable def simpleExpHigh (prof : SProfile) (t_low t_high t_ret gamma : ℝ) : ℝ :=
  (ltypes.map (fun typ =>
    pOfSimple prof typ *
      (simplePayoffs prof t_low t_high t_ret gamma typ true
        (simpleForeignBest prof t_low t_high t_ret gamma typ true)).1)).sum

/-- Outputs of one evaluation of the pages/simple.py model. -/
structure SimpleEval where
  typeProbs : ℝ × ℝ × ℝ
  expLow : ℝ
  expHigh : ℝ
  bestAct : String

/-- One full evaluation of the pages/simple.py model, parametrized by the four
sidebar sliders (lines 64-67): low/high tariff rates, retaliation rate and
the friendliness-penalty coefficient gamma. -/
noncomputable def simpleEval (prof : SProfile) (t_low t_high t_ret gamma : ℝ) : SimpleEval :=
  { typeProbs := simpleTypeProbs prof
    expLow := simpleExpLow prof t_low t_high t_ret gamma
    expHigh := simpleExpHigh prof t_low t_high t_ret gamma
    bestAct := if simpleExpHigh prof t_low t_high t_ret gamma >
        simpleExpLow prof t_low t_high t_ret gamma then ("high") else ("low") }

/-- Python's `max(options, key=options.get)` over an association list in
insertion order: keep the current best unless a later value is strictly
greater, hence ties resolve to the first-encountered key (app.py line 171,
pages/bayesian.py line 123). -/
def maxByVal {α : Type} [LinearOrder α] (best : String × α) : List (String × α) → String × α
  | [] => best
  | p :: rest => maxByVal (if p.2 > best.2 then p else best) rest

/-- Decision selector `bestAction`: the key of the maximal value of a
(nonempty) association list; `Option.none` on the empty list. -/
def bestAction {α : Type} [LinearOrder α] : List (String × α) → Option String
  | [] => Option.none
  | x :: xs => Option.some (maxByVal x xs).1

/-- The "China" entry of the `countries` table (app.py lines 7-16). -/
noncomputable def chinaProfile : Profile :=
  ⟨17.79, 0.18, 8.0, 0.2, 27.72, 143.5 / 2100, 0.114, 0.095⟩

/-- The "Mexico" entry of the `countries` table (app.py lines 17-26). -/
noncomputable def mexicoProfile : Profile :=
  ⟨1.79, 0.446, 4.0, 0.5, 27.72, 334 / 2100, 0.156, 0.665⟩

/-- The "EU" entry of the `countries` table (app.py lines 27-36). -/
noncomputable def euProfile : Profile :=
  ⟨18.4, 0.15, 2.0, 0.7, 27.72, 370.2 / 2100, 0.191, 0.168⟩

/-- The `countries` table of app.py lines 6-37, in source order. -/
noncomputable def countries : List (String × Profile) :=
  [(("China"), chinaProfile), (("Mexico"), mexicoProfile), (("EU"), euProfile)]

/-- The known country keys, in table order. -/
noncomputable def countryKeys : List String := countries.map Prod.fst

/-- Profile lookup `countries[selected_country]` (app.py line 72): a fallible
lookup that returns the profile for a known key and fails carrying the
unknown key itself (Python raises `KeyError(key)`). -/
noncomputable def getProfile (k : String) : Except String Profile :=
  match countries.lookup k with
  | Option.some p => Except.ok p
  | Option.none => Except.error k

end

/-! Helper lemmas about the stabilized softmax. -/

/-- Max-subtraction in `softmax3` cancels: each component is the exponential of
its raw score over the sum of the three exponentials. -/
theorem softmax3_eq (s1 s2 s3 : ℝ) :
    softmax3 s1 s2 s3 =
      (Real.exp s1 / (Real.exp s1 + Real.exp s2 + Real.exp s3),
       Real.exp s2 / (Real.exp s1 + Real.exp s2 + Real.exp s3),
       Real.exp s3 / (Real.exp s1 + Real.exp s2 + Real.exp s3)) := by
  have hm : Real.exp (max s1 (max s2 s3)) ≠ 0 := Real.exp_ne_zero _
  unfold softmax3
  dsimp only
  rw [Real.exp_sub, Real.exp_sub, Real.exp_sub, div_add_div_same, div_add_div_same,
    div_div_div_cancel_right₀ hm, div_div_div_cancel_right₀ hm,
    div_div_div_cancel_right₀ hm]

/-- Softmax yields a distribution: sums to one, components strictly inside
`(0, 1)`. -/
theorem softmax3_isDist (s1 s2 s3 : ℝ) :
    (softmax3 s1 s2 s3).1 + (softmax3 s1 s2 s3).2.1 + (softmax3 s1 s2 s3).2.2 = 1 ∧
    (0 < (softmax3 s1 s2 s3).1 ∧ (softmax3 s1 s2 s3).1 < 1) ∧
    (0 < (softmax3 s1 s2 s3).2.1 ∧ (softmax3 s1 s2 s3).2.1 < 1) ∧
    (0 < (softmax3 s1 s2 s3).2.2 ∧ (softmax3 s1 s2 s3).2.2 < 1) := by
  rw [softmax3_eq]
  dsimp only
  have h1 := Real.exp_pos s1
  have h2 := Real.exp_pos s2
  have h3 := Real.exp_pos s3
  have hs : 0 < Real.exp s1 + Real.exp s2 + Real.exp s3 := by linarith
  refine ⟨?_, ⟨?_, ?_⟩, ⟨?_, ?_⟩, ⟨?_, ?_⟩⟩
  · rw [div_add_div_same, div_add_div_same, div_self (ne_of_gt hs)]
  · exact div_pos h1 hs
  · exact (div_lt_one hs).2 (by linarith)
  · exact div_pos h2 hs
  · exact (div_lt_one hs).2 (by linarith)
  · exact div_pos h3 hs
  · exact (div_lt_one hs).2 (by linarith)

/-- A strictly larger raw score gives a strictly larger softmax component
(first versus third component). -/
theorem softmax3_fst_lt_thd {s1 s2 s3 : ℝ} (h : s1 < s3) :
    (softmax3 s1 s2 s3).1 < (softmax3 s1 s2 s3).2.2 := by
  rw [softmax3_eq]
  dsimp only
  have hs : 0 < Real.exp s1 + Real.exp s2 + Real.exp s3 := by positivity
  exact (div_lt_div_iff_of_pos_right hs).2 (Real.exp_lt_exp.2 h)

/-- A strictly larger raw score gives a strictly larger softmax component
(second versus third component). -/
theorem softmax3_snd_lt_thd {s1 s2 s3 : ℝ} (h : s2 < s3) :
    (softmax3 s1 s2 s3).2.1 < (softmax3 s1 s2 s3).2.2 := by
  rw [softmax3_eq]
  dsimp only
  have hs : 0 < Real.exp s1 + Real.exp s2 + Real.exp s3 := by positivity
  exact (div_lt_div_iff_of_pos_right hs).2 (Real.exp_lt_exp.2 h)

/-- With the China profile at tariff 0.3, the retaliation score is strictly
below the no-response score. -/
theorem china_S_ret_lt_S_none :
    S_ret (normG chinaProfile.GDP) (normN chinaProfile.Nationalism)
        (normD chinaProfile.Trade) chinaProfile.Friendliness (normT 0.3) <
      S_none (normG chinaProfile.GDP) (normN chinaProfile.Nationalism)
        (normD chinaProfile.Trade) chinaProfile.Friendliness (normT 0.3) := by
  norm_num [S_ret, S_none, normG, normN, normD, normT, chinaProfile,
    GDP_MIN, GDP_MAX, NATIONALISM_MAX, TRADE_MAX, TARIFF_MAX]

/-- With the China profile at tariff 0.3, the negotiation score is strictly
below the no-response score. -/
theorem china_S_neg_lt_S_none :
    S_neg (normG chinaProfile.GDP) (normN chinaProfile.Nationalism)
        (normD chinaProfile.Trade) chinaProfile.Friendliness (normT 0.3) <
      S_none (normG chinaProfile.GDP) (normN chinaProfile.Nationalism)
        (normD chinaProfile.Trade) chinaProfile.Friendliness (normT 0.3) := by
  norm_num [S_neg, S_none, normG, normN, normD, normT, chinaProfile,
    GDP_MIN, GDP_MAX, NATIONALISM_MAX, TRADE_MAX, TARIFF_MAX]

/-- C2: for all real inputs G, N, D, F, T, `updated_response_probs` returns a
distribution over the three response classes whose components sum exactly to
one over the reals, each lying strictly in the open interval (0, 1). -/
theorem updated_response_probs_isDistribution (G N D F T : ℝ) :
    (updated_response_probs G N D F T).1 + (updated_response_probs G N D F T).2.1 +
        (updated_response_probs G N D F T).2.2 = 1 ∧
    (0 < (updated_response_probs G N D F T).1 ∧ (updated_response_probs G N D F T).1 < 1) ∧
    (0 < (updated_response_probs G N D F T).2.1 ∧ (updated_response_probs G N D F T).2.1 < 1) ∧
    (0 < (updated_response_probs G N D F T).2.2 ∧ (updated_response_probs G N D F T).2.2 < 1) :=
  softmax3_isDist _ _ _

/-- C4 (counterexample): with the China profile (GDP 17.79, Trade 0.18,
Nationalism 8.0, Friendliness 0.2) at tariff T = 0.3, the retaliate class does
NOT receive the largest probability: the no-response component strictly
exceeds it. -/
theorem china_retaliate_not_largest :
    ¬ ((appProbs chinaProfile 0.3).2.1 ≤ (appProbs chinaProfile 0.3).1 ∧
       (appProbs chinaProfile 0.3).2.2 ≤ (appProbs chinaProfile 0.3).1) := by
  intro hcl
  have h : (appProbs chinaProfile 0.3).1 < (appProbs chinaProfile 0.3).2.2 := by
    unfold appProbs updated_response_probs
    exact softmax3_fst_lt_thd china_S_ret_lt_S_none
  exact absurd hcl.2 (not_le.2 h)

/-- C4 (amended): with the China profile at tariff T = 0.3, the no-response
class receives the strictly largest of the three softmax probabilities
(the claimed retaliate class is strictly below it, as is negotiate). -/
theorem china_no_response_largest :
    (appProbs chinaProfile 0.3).1 < (appProbs chinaProfile 0.3).2.2 ∧
    (appProbs chinaProfile 0.3).2.1 < (appProbs chinaProfile 0.3).2.2 := by
  constructor
  · unfold appProbs updated_response_probs
    exact softmax3_fst_lt_thd china_S_ret_lt_S_none
  · unfold appProbs updated_response_probs
    exact softmax3_snd_lt_thd china_S_neg_lt_S_none

/-- C5: for fixed G, N, D, F, the retaliation probability of
`updated_response_probs` is strictly increasing in the tariff level T. -/
theorem pRetaliate_strictMono_inT (G N D F T1 T2 : ℝ) (h : T1 < T2) :
    (updated_response_probs G N D F T1).1 < (updated_response_probs G N D F T2).1 := by
  unfold updated_response_probs
  rw [softmax3_eq, softmax3_eq]
  dsimp only
  have hbeq : Real.exp (S_neg G N D F T2) = Real.exp (S_neg G N D F T1) := rfl
  rw [hbeq]
  have ha1 := Real.exp_pos (S_ret G N D F T1)
  have ha2 := Real.exp_pos (S_ret G N D F T2)
  have hb := Real.exp_pos (S_neg G N D F T1)
  have hc1 := Real.exp_pos (S_none G N D F T1)
  have hc2 := Real.exp_pos (S_none G N D F T2)
  rw [div_lt_div_iff₀ (by linarith) (by linarith)]
  have h1 : Real.exp (S_ret G N D F T1) < Real.exp (S_ret G N D F T2) :=
    Real.exp_lt_exp.2 (by unfold S_ret; linarith)
  have h2 : Real.exp (S_ret G N D F T1) * Real.exp (S_none G N D F T2) <
      Real.exp (S_ret G N D F T2) * Real.exp (S_none G N D F T1) := by
    rw [← Real.exp_add, ← Real.exp_add]
    exact Real.exp_lt_exp.2 (by unfold S_ret S_none; linarith)
  nlinarith [h2, mul_lt_mul_of_pos_right h1 hb]

/-- C5 witness at a concrete input pair. -/
theorem pRetaliate_strictMono_inT_witness :
    (updated_response_probs 0 0 0 0 0).1 < (updated_response_probs 0 0 0 0 1).1 :=
  pRetaliate_strictMono_inT 0 0 0 0 0 1 zero_lt_one

/-- C1: the first-stage expected utilities of app.py.  `U_x2` is the
expected utility of the game tree in which no-response is terminal while
negotiate and retaliate open a second US decision node valued at the maximum
of its two follow-up payoffs (subgame-perfect best reply); `U_x3` is the
expected utility of the tree whose three response classes are all terminal
(a plain probability-weighted sum, no max). -/
theorem appU_matches_subgame_tree (prof : Profile) (mu t2v t3v z1 z2 tcl tch : ℝ) :
    appU_x2 prof mu t2v z1 z2 tcl tch =
      expectedUtility
        [((appProbs prof t2v).2.2,
            Outcome.terminal (us_payoff t2v 0 0 prof.GDP_us prof.TD_us mu prof.ID_us)),
         ((appProbs prof t2v).2.1,
            Outcome.node (us_payoff z1 0 0 prof.GDP_us prof.TD_us mu prof.ID_us)
              (us_payoff z2 0 0 prof.GDP_us prof.TD_us mu prof.ID_us)),
         ((appProbs prof t2v).1,
            Outcome.node (us_payoff z1 tcl 1 prof.GDP_us prof.TD_us mu prof.ID_us)
              (us_payoff z2 tch 1 prof.GDP_us prof.TD_us mu prof.ID_us))] ∧
    appU_x3 prof mu t3v tch =
      expectedUtility
        [((appProbs prof t3v).2.2,
            Outcome.terminal (us_payoff t3v 0 0 prof.GDP_us prof.TD_us mu prof.ID_us)),
         ((appProbs prof t3v).2.1,
            Outcome.terminal (us_payoff t3v 0 0 prof.GDP_us prof.TD_us mu prof.ID_us)),
         ((appProbs prof t3v).1,
            Outcome.terminal (us_payoff t3v tch 1 prof.GDP_us prof.TD_us mu prof.ID_us))] := by
  constructor <;> simp [appU_x2, appU_x3, expectedUtility, outcomeValue] <;> ring

/-- C3 (counterexample): in the political-economy variant
(pages/namegametree.py `us_payoff`), a retaliation tariff of exactly 0 does
NOT make the payoff independent of the `retaliated` flag: at
`t_us = 0.3, t_ch = 0, alpha = 1.0, beta = 0.8, gamma = 0.2` and the China
trade data, the flag values 1 and 0 give different payoffs (they differ by
`beta`). -/
theorem us_payoff_pol_flag_counterexample :
    us_payoff_pol 0.3 0 1 1.0 0.8 0.2 27.72 (143.5 / 2100) ≠
      us_payoff_pol 0.3 0 0 1.0 0.8 0.2 27.72 (143.5 / 2100) := by
  unfold us_payoff_pol
  rw [if_pos (one_ne_zero), if_neg (fun h => h rfl)]
  norm_num

/-- C3 (amended): `foreign_payoff(t_us, 0, ...)` always equals the
no-retaliation-gain baseline `-(GDP * (t_us * TD))`; the economic-only
`us_payoff` with retaliation tariff 0 is independent of the `retaliated`
flag; but the political-economy `us_payoff` of pages/namegametree.py still
subtracts `beta * retaliated` at retaliation tariff 0, so its value at flag
`r` differs from flag 0 exactly by `beta * r`. -/
theorem zero_retaliation_gating_amended
    (t_us GDP TD nu ID r GDP_us TD_us mu ID_us alpha beta gamma : ℝ) :
    foreign_payoff t_us 0 GDP TD nu ID = -(GDP * (t_us * TD)) ∧
    us_payoff t_us 0 r GDP_us TD_us mu ID_us = us_payoff t_us 0 0 GDP_us TD_us mu ID_us ∧
    us_payoff_pol t_us 0 r alpha beta gamma GDP_us TD_us =
      us_payoff_pol t_us 0 0 alpha beta gamma GDP_us TD_us - beta * r := by
  refine ⟨?_, ?_, ?_⟩
  · unfold foreign_payoff
    rw [if_neg (lt_irrefl 0)]
    ring
  · unfold us_payoff
    rcases eq_or_ne r 0 with h | h
    · rw [h]
    · rw [if_pos h, if_neg (fun h0 => h0 rfl)]
      ring
  · unfold us_payoff_pol
    rcases eq_or_ne r 0 with h | h
    · rw [h]
      ring
    · rw [if_pos h, if_neg (fun h0 => h0 rfl)]
      ring

/-- C6: the normalizer computes exactly the documented formulas, passes
friendliness through unchanged, and applies no clamping: a GDP above
`GDP_MAX` or a trade dependence above `TRADE_MAX` yields a factor strictly
greater than 1, returned unmodified. -/
theorem normalize_formulas_no_clamp (gdp trade natl f t : ℝ) :
    (normG gdp = (gdp - GDP_MIN) / (GDP_MAX - GDP_MIN) ∧
     normD trade = trade / TRADE_MAX ∧
     normN natl = natl / NATIONALISM_MAX ∧
     normF f = f ∧
     normT t = t * 100 / TARIFF_MAX) ∧
    (GDP_MAX < gdp → 1 < normG gdp) ∧
    (TRADE_MAX < trade → 1 < normD trade) := by
  refine ⟨⟨rfl, rfl, rfl, rfl, rfl⟩, ?_, ?_⟩
  · intro h
    unfold normG GDP_MIN GDP_MAX
    rw [lt_div_iff₀ (by norm_num)]
    unfold GDP_MAX at h
    linarith
  · intro h
    unfold normD TRADE_MAX
    rw [lt_div_iff₀ (by norm_num)]
    unfold TRADE_MAX at h
    linarith

/-- C6 witness: an out-of-range GDP of 26 and trade dependence of 1 both
produce factors strictly greater than 1. -/
theorem normalize_formulas_no_clamp_witness :
    1 < normG 26 ∧ 1 < normD 1 :=
  ⟨(normalize_formulas_no_clamp 26 1 0 0 0).2.1 (by norm_num [GDP_MAX]),
   (normalize_formulas_no_clamp 26 1 0 0 0).2.2 (by norm_num [TRADE_MAX])⟩

/-- C7: in the Bayesian friendliness-penalty variant, `U_high` is the sum
over the three latent types of `p[typ] * payoff(typ, high, retaliate) * 0.5
+ p[typ] * payoff(typ, high, no_retaliate) * 0.5` — a fixed 0.5/0.5 split
over the partner's two sub-actions within each type, not a maximum — and
`U_low` is the analogous sum for the low-tariff action. -/
theorem bayesU_half_split (prof : Profile) (mu t2v t3v t_chv ps : ℝ) :
    bayesU_high prof mu t3v t_chv ps =
      pOfBayes prof .high * bayesPayoffNode prof .high mu t3v t_chv ps * 0.5
        + pOfBayes prof .high * bayesPayoffNode prof .high mu t3v 0.0 ps * 0.5
        + (pOfBayes prof .low * bayesPayoffNode prof .low mu t3v t_chv ps * 0.5
            + pOfBayes prof .low * bayesPayoffNode prof .low mu t3v 0.0 ps * 0.5)
        + (pOfBayes prof .none * bayesPayoffNode prof .none mu t3v t_chv ps * 0.5
            + pOfBayes prof .none * bayesPayoffNode prof .none mu t3v 0.0 ps * 0.5) ∧
    bayesU_low prof mu t2v t_chv ps =
      pOfBayes prof .high * bayesPayoffNode prof .high mu t2v t_chv ps * 0.5
        + pOfBayes prof .high * bayesPayoffNode prof .high mu t2v 0.0 ps * 0.5
        + (pOfBayes prof .low * bayesPayoffNode prof .low mu t2v t_chv ps * 0.5
            + pOfBayes prof .low * bayesPayoffNode prof .low mu t2v 0.0 ps * 0.5)
        + (pOfBayes prof .none * bayesPayoffNode prof .none mu t2v t_chv ps * 0.5
            + pOfBayes prof .none * bayesPayoffNode prof .none mu t2v 0.0 ps * 0.5) := by
  constructor <;> simp [bayesU_high, bayesU_low, ltypes] <;> ring

/-- The result of `maxByVal` occurs in the scanned list, its value is maximal,
and every element strictly before it has a strictly smaller value, so among
tied maxima the first-encountered entry wins. -/
theorem maxByVal_spec {α : Type} [LinearOrder α] (x : String × α) (xs : List (String × α)) :
    ∃ l1 l2, x :: xs = l1 ++ maxByVal x xs :: l2 ∧
      (∀ q ∈ x :: xs, q.2 ≤ (maxByVal x xs).2) ∧
      (∀ q ∈ l1, q.2 < (maxByVal x xs).2) := by
  induction xs generalizing x with
  | nil =>
      refine ⟨[], [], by simp [maxByVal], ?_, ?_⟩
      · intro q hq
        simp only [maxByVal]
        rw [List.mem_singleton] at hq
        exact hq ▸ le_refl _
      · intro q hq
        exact absurd hq (List.not_mem_nil q)
  | cons p rest ih =>
      have hunf : maxByVal x (p :: rest) = maxByVal (if p.2 > x.2 then p else x) rest := rfl
      by_cases hpx : p.2 > x.2
      · rw [if_pos hpx] at hunf
        obtain ⟨l1, l2, heq, hmax, hpref⟩ := ih p
        refine ⟨x :: l1, l2, ?_, ?_, ?_⟩
        · rw [hunf, List.cons_append, ← heq]
        · intro q hq
          rw [hunf]
          rcases List.mem_cons.1 hq with rfl | h
          · exact le_of_lt (lt_of_lt_of_le hpx (hmax p (List.mem_cons_self p rest)))
          · exact hmax q h
        · intro q hq
          rw [hunf]
          rcases List.mem_cons.1 hq with rfl | h
          · exact lt_of_lt_of_le hpx (hmax p (List.mem_cons_self p rest))
          · exact hpref q h
      · rw [if_neg hpx] at hunf
        push_neg at hpx
        obtain ⟨l1, l2, heq, hmax, hpref⟩ := ih x
        cases l1 with
        | nil =>
            simp only [List.nil_append] at heq
            injection heq with hm hl2
            refine ⟨[], p :: rest, ?_, ?_, ?_⟩
            · rw [hunf, ← hm]
              simp
            · intro q hq
              rw [hunf, ← hm]
              rcases List.mem_cons.1 hq with rfl | h
              · exact le_refl _
              rcases List.mem_cons.1 h with rfl | h2
              · exact hpx
              · have hq2 := hmax q (List.mem_cons_of_mem x h2)
                rw [← hm] at hq2
                exact hq2
            · intro q hq
              exact absurd hq (List.not_mem_nil q)
        | cons y l1' =>
            rw [List.cons_append] at heq
            injection heq with hy hrest
            subst hy
            have hxlt : x.2 < (maxByVal x rest).2 := hpref x (List.mem_cons_self x l1')
            refine ⟨x :: p :: l1', l2, ?_, ?_, ?_⟩
            · rw [hunf, List.cons_append, List.cons_append, ← hrest]
            · intro q hq
              rw [hunf]
              rcases List.mem_cons.1 hq with h | h
              · rw [h]
                exact hmax x (List.mem_cons_self x rest)
              rcases List.mem_cons.1 h with h2 | h2
              · rw [h2]
                exact le_trans hpx (hmax x (List.mem_cons_self x rest))
              · exact hmax q (List.mem_cons_of_mem x h2)
            · intro q hq
              rw [hunf]
              rcases List.mem_cons.1 hq with h | h
              · rw [h]
                exact hxlt
              rcases List.mem_cons.1 h with h2 | h2
              · rw [h2]
                exact lt_of_le_of_lt hpx hxlt
              · exact hpref q (List.mem_cons_of_mem x h2)

/-- C8: `bestAction` on a nonempty association list returns the key of
`maxByVal`, which occurs in the list, carries the maximum value, and is the
first-encountered entry among tied maxima (every earlier entry has a
strictly smaller value); as a pure function it is deterministic. -/
theorem bestAction_first_max {α : Type} [LinearOrder α] (x : String × α)
    (xs : List (String × α)) :
    bestAction (x :: xs) = Option.some (maxByVal x xs).1 ∧
    ∃ l1 l2, x :: xs = l1 ++ maxByVal x xs :: l2 ∧
      (∀ q ∈ x :: xs, q.2 ≤ (maxByVal x xs).2) ∧
      (∀ q ∈ l1, q.2 < (maxByVal x xs).2) :=
  ⟨rfl, maxByVal_spec x xs⟩

/-- C9: profile lookup fails fast on every unknown country key with an error
carrying that key (Python raises `KeyError`), never silently defaulting, and
succeeds on every known key with that key's table entry. -/
theorem getProfile_fail_fast (k : String) :
    (k ∈ countryKeys → ∃ p, getProfile k = Except.ok p ∧ (k, p) ∈ countries) ∧
    (k ∉ countryKeys → getProfile k = Except.error k) := by
  constructor
  · intro hk
    simp only [countryKeys, countries, List.map_cons, List.map_nil, List.mem_cons,
      List.not_mem_nil, or_false] at hk
    rcases hk with rfl | rfl | rfl
    · exact ⟨chinaProfile, by simp [getProfile, countries, List.lookup], by simp [countries]⟩
    · exact ⟨mexicoProfile, by simp [getProfile, countries, List.lookup], by simp [countries]⟩
    · exact ⟨euProfile, by simp [getProfile, countries, List.lookup], by simp [countries]⟩
  · intro hk
    simp only [countryKeys, countries, List.map_cons, List.map_nil, List.mem_cons,
      List.not_mem_nil, or_false, not_or] at hk
    obtain ⟨h1, h2, h3⟩ := hk
    simp [getProfile, countries, List.lookup_cons, beq_false_of_ne h1,
      beq_false_of_ne h2, beq_false_of_ne h3]

/-- C9 witness: the known key "China" succeeds with its table entry; the
unknown key "France" fails fast with an error naming "France". -/
theorem getProfile_fail_fast_witness :
    (∃ p, getProfile ("China") = Except.ok p ∧ (("China"), p) ∈ countries) ∧
    getProfile ("France") = Except.error ("France") :=
  ⟨(getProfile_fail_fast ("China")).1 (by simp [countryKeys, countries]),
   (getProfile_fail_fast ("France")).2 (by simp [countryKeys, countries])⟩

/-- C10: in both Bayesian-type variants (pages/bayesian.py and
pages/simple.py), Nature's latent-type distribution depends only on the
profile's normalized factors: two evaluations of the same profile that
differ only in the tariff-level inputs (low/high tariff rates, retaliation
rate, penalty coefficient) return identical type probabilities. -/
theorem type_probs_tariff_independent (prof : Profile) (sprof : SProfile)
    (mu t2v t3v t_chv ps mu' t2v' t3v' t_chv' ps' tl th tr g tl' th' tr' g' : ℝ) :
    (bayesEval prof mu t2v t3v t_chv ps).typeProbs =
      (bayesEval prof mu' t2v' t3v' t_chv' ps').typeProbs ∧
    (simpleEval sprof tl th tr g).typeProbs = (simpleEval sprof tl' th' tr' g').typeProbs :=
  ⟨rfl, rfl⟩

end TariffGame
